import Mathlib

/-
Verification of the joystick-controller streaming core.

The definitions below are a shallow embedding of
src/src/components/Dashboard.tsx (second revision, the one with the
sendByInterval / sendHz streaming configuration).  JavaScript numbers are
modelled as rationals, JavaScript `undefined` as `Option.none`, and the
two latch ref objects `lastSentState` / `lastAxisValues` as association
lists keyed by the channel index.  Line references are to Dashboard.tsx.
-/

/-- Channel kind of a field mapping (Dashboard.tsx line 467-470,
the union type of the strings button and axis). -/
inductive ChannelKind where
  | button : ChannelKind
  | axis : ChannelKind
deriving DecidableEq, Repr

/-- A field mapping entry (Dashboard.tsx lines 466-470). -/
structure FieldMapping where
  type : ChannelKind
  index : Nat
  fieldName : String
deriving DecidableEq, Repr

/-- One device snapshot as produced by useGamepad.ts lines 61-65:
buttons as pressed flags, axes as numbers. -/
structure GamepadState where
  buttons : List Bool
  axes : List ℚ
  timestamp : ℚ
deriving DecidableEq, Repr

/-- Lookup in a JavaScript-object-as-map keyed by numbers: reading a key
returns the stored value, or none when the key is absent. -/
def lookupL {α : Type} (l : List (Nat × α)) (k : Nat) : Option α :=
  (l.find? (fun p => p.1 == k)).map Prod.snd

/-- Assignment `obj[k] = v` on a JavaScript-object-as-map: the new binding
shadows any previous binding for the same key. -/
def insertL {α : Type} (l : List (Nat × α)) (k : Nat) (v : α) : List (Nat × α) :=
  (k, v) :: l.filter (fun p => p.1 != k)

/-- The two change-detector latch objects (Dashboard.tsx lines 487-488,
`lastSentState = useRef({})` and `lastAxisValues = useRef({})`).  A button
latch entry stores the value of `gamepadState.buttons[index]` that was
assigned, which is itself `undefined` for an out-of-range index, hence
`Option Bool` values. -/
structure Latches where
  lastSentState : List (Nat × Option Bool)
  lastAxisValues : List (Nat × ℚ)
deriving DecidableEq, Repr

/-- The initial (empty) latch objects. -/
def Latches.empty : Latches := ⟨[], []⟩

/-- Reading `lastSentState.current[i]`: absent key and stored-undefined
both read as `undefined` (none). -/
def readBtnLatch (L : Latches) (i : Nat) : Option Bool :=
  (lookupL L.lastSentState i).join

/-- The fixed deadzone threshold (Dashboard.tsx line 558,
`const deadZone = 0.05`).  Written with mkRat so that the kernel can
evaluate it; mkRat 5 100 = 5 / 100 is proved in deadzone_spec. -/
def deadZone : ℚ := mkRat 5 100

/-- JavaScript Math.abs on the rational model of numbers. -/
def mathAbs (x : ℚ) : ℚ :=
  if x < 0 then -x else x

/-- The deadzone filter (Dashboard.tsx lines 569 and 617,
`Math.abs(rawValue) < deadZone ? 0 : rawValue`). -/
def applyDeadzone (raw : ℚ) : ℚ :=
  if mathAbs raw < deadZone then 0 else raw

/-- Rounding to two decimals as done by
`parseFloat(currentValue.toFixed(2))` (Dashboard.tsx lines 570 and 623):
the nearest multiple of 1/100, ties going to the larger value, per the
toFixed specification. -/
def round2 (x : ℚ) : ℚ :=
  mkRat ⌊x * 100 + mkRat 1 2⌋ 100

/-- The value emitted for one mapping by the payload builder
(Dashboard.tsx lines 563-572): a button reads
`gamepadState.buttons[mapping.index]` and emits 1 when truthy, else 0; an
axis reads `gamepadState.axes[mapping.index] || 0`, applies the deadzone,
and rounds to two decimals. -/
def payloadValue (gs : GamepadState) (m : FieldMapping) : ℚ :=
  match m.type with
  | .button => if gs.buttons[m.index]? = some true then 1 else 0
  | .axis => round2 (applyDeadzone ((gs.axes[m.index]?).getD 0))

/-- The payload builder `buildPayload` (Dashboard.tsx lines 561-574).
The JavaScript object is modelled as the list of key/value assignments in
mapping-table order. -/
def buildPayload (gs : GamepadState) (mappings : List FieldMapping) : List (String × ℚ) :=
  mappings.map (fun m => (m.fieldName, payloadValue gs m))

/-- Accumulator of the change-detection `forEach` loop
(Dashboard.tsx lines 600-625): the mutable latch refs, the `hasChange`
flag and the payload object under construction. -/
structure TickAcc where
  latches : Latches
  hasChange : Bool
  payload : List (String × ℚ)

/-- One iteration of the change-detection loop (Dashboard.tsx lines
603-625).  For a button: compare `gamepadState.buttons[mapping.index]`
(undefined when out of range) with the latch read; on inequality set
`hasChange` and overwrite the latch with the read value.  For an axis:
compare the deadzone-filtered value with the latch; the source condition
`lastValue === undefined || currentValue !== lastValue` is the negation
of `some currentValue = lastValue`.  In both cases the payload field is
assigned afterwards, unconditionally. -/
def stepMapping (gs : GamepadState) (acc : TickAcc) (m : FieldMapping) : TickAcc :=
  match m.type with
  | .button =>
    let isPressed := gs.buttons[m.index]?
    let wasPressed := readBtnLatch acc.latches m.index
    let acc1 :=
      if isPressed = wasPressed then acc
      else { acc with
        hasChange := true,
        latches := { acc.latches with
          lastSentState := insertL acc.latches.lastSentState m.index isPressed } }
    { acc1 with payload := acc1.payload ++ [(m.fieldName, if isPressed = some true then 1 else 0)] }
  | .axis =>
    let rawValue := (gs.axes[m.index]?).getD 0
    let lastValue := lookupL acc.latches.lastAxisValues m.index
    let currentValue := applyDeadzone rawValue
    let acc1 :=
      if some currentValue = lastValue then acc
      else { acc with
        hasChange := true,
        latches := { acc.latches with
          lastAxisValues := insertL acc.latches.lastAxisValues m.index currentValue } }
    { acc1 with payload := acc1.payload ++ [(m.fieldName, round2 currentValue)] }

/-- One change-detection tick (the else branch of the streaming effect,
Dashboard.tsx lines 598-630): run the loop over all mappings starting
from the current latches, then publish the accumulated payload exactly
when `hasChange` is set.  Returns the latches as left by the loop and the
published payload, if any. -/
def changeDetectTick (gs : GamepadState) (mappings : List FieldMapping) (L : Latches) :
    Latches × Option (List (String × ℚ)) :=
  let acc := mappings.foldl (stepMapping gs) ⟨L, false, []⟩
  (acc.latches, if acc.hasChange then some acc.payload else none)

/-- Whether one mapped channel registers a change against given latches,
exactly as the loop tests it: buttons compare the raw (possibly
undefined) lookup with the latch read, axes compare the deadzone-filtered
value with the latch entry. -/
def channelChanged (gs : GamepadState) (L : Latches) (m : FieldMapping) : Bool :=
  match m.type with
  | .button => if gs.buttons[m.index]? = readBtnLatch L m.index then false else true
  | .axis =>
    if some (applyDeadzone ((gs.axes[m.index]?).getD 0)) = lookupL L.lastAxisValues m.index
    then false else true

/-- JavaScript String.prototype.trim, as used by addMapping
(Dashboard.tsx lines 634 and 641): strip whitespace from both ends.
Written by structural recursion on the character list so that the kernel
can evaluate it. -/
def jsTrim (s : String) : String :=
  ⟨((s.data.dropWhile Char.isWhitespace).reverse.dropWhile Char.isWhitespace).reverse⟩

/-- addMapping (Dashboard.tsx lines 633-642): a blank field name is a
no-op; otherwise any existing mapping for the same (type, index) pair is
filtered out and the new mapping, with trimmed field name, is appended. -/
def addMapping (mappings : List FieldMapping) (type : ChannelKind) (index : Nat)
    (fieldName : String) : List FieldMapping :=
  if jsTrim fieldName = "" then mappings
  else
    mappings.filter (fun m => !decide (m.type = type ∧ m.index = index))
      ++ [⟨type, index, jsTrim fieldName⟩]

/-- removeMapping (Dashboard.tsx lines 644-646): drop every mapping for
the given (type, index) pair. -/
def removeMapping (mappings : List FieldMapping) (type : ChannelKind) (index : Nat) :
    List FieldMapping :=
  mappings.filter (fun m => !decide (m.type = type ∧ m.index = index))

/-- The identity of a mapping for the uniqueness invariant. -/
def mappingKey (m : FieldMapping) : ChannelKind × Nat := (m.type, m.index)

/-- The mapping-table invariant: at most one mapping per (kind, index). -/
def keysNodup (ms : List FieldMapping) : Prop := (ms.map mappingKey).Nodup

/-- The streaming flag together with the latch refs.  The refs are
component-level (useRef, Dashboard.tsx lines 487-488) and are never
written outside the change-detection loop, so they survive any number of
start and stop toggles. -/
structure StreamSession where
  isStreaming : Bool
  latches : Latches
deriving DecidableEq

/-- Stop streaming (Dashboard.tsx line 871, the toggle button calls
setIsStreaming(false) when streaming): no statement in the component
touches lastSentState or lastAxisValues on this path. -/
def stopStreaming (s : StreamSession) : StreamSession :=
  { s with isStreaming := false }

/-- Start streaming (Dashboard.tsx line 871, setIsStreaming(true)):
again no statement touches the latch refs. -/
def startStreaming (s : StreamSession) : StreamSession :=
  { s with isStreaming := true }

/-- Whether two latch states read the same for a given mapping: the
button latch read for a button mapping, the axis latch entry for an axis
mapping. -/
def latchAgrees (L L' : Latches) (m : FieldMapping) : Bool :=
  match m.type with
  | .button => if readBtnLatch L m.index = readBtnLatch L' m.index then true else false
  | .axis =>
    if lookupL L.lastAxisValues m.index = lookupL L'.lastAxisValues m.index then true else false

/-- Modelled from the spec: the saved-configuration record produced by
the persistence collaborator (configManager, whose source file is not
part of src/).  Its shape follows the fields the Dashboard reads from a
loaded config: name, natsUrl, subject, mappings, and the optional sendHz
and sendByInterval, which are compared against undefined before use
(Dashboard.tsx lines 497-502 and 656-661). -/
structure GamepadConfig where
  name : String
  natsUrl : String
  subject : String
  mappings : List FieldMapping
  sendHz : Option ℚ
  sendByInterval : Option Bool
deriving DecidableEq

/-- The component state touched by the configuration operations
(Dashboard.tsx lines 473-484). -/
structure DashboardState where
  natsUrl : String
  subject : String
  mappings : List FieldMapping
  sendHz : ℚ
  sendByInterval : Bool
  isStreaming : Bool
  lastMessage : Option (List (String × ℚ))
deriving DecidableEq

/-- The send-frequency number input (Dashboard.tsx lines 760-769): it is
disabled while streaming (so the change event cannot fire), and its
onChange stores Math.max(1, Math.min(100, value)). -/
def setSendHzInput (st : DashboardState) (v : ℚ) : DashboardState :=
  if st.isStreaming then st else { st with sendHz := max 1 (min 100 v) }

/-- The send-by-interval checkbox (Dashboard.tsx lines 743-750): it is
disabled while streaming, otherwise stores the checked flag. -/
def setSendByIntervalInput (st : DashboardState) (b : Bool) : DashboardState :=
  if st.isStreaming then st else { st with sendByInterval := b }

/-- handleLoadConfig (Dashboard.tsx lines 652-663): loading a config
overwrites natsUrl, subject and mappings, and copies sendHz and
sendByInterval verbatim when present; there is no clamping and no
streaming check on this path. -/
def handleLoadConfig (st : DashboardState) (config : GamepadConfig) : DashboardState :=
  let st1 := { st with
    natsUrl := config.natsUrl, subject := config.subject, mappings := config.mappings }
  let st2 :=
    match config.sendHz with
    | some hz => { st1 with sendHz := hz }
    | none => st1
  match config.sendByInterval with
  | some b => { st2 with sendByInterval := b }
  | none => st2

/-- The URL-config mount effect (Dashboard.tsx lines 491-506): the same
field updates as handleLoadConfig, applied to the decoded share-link
config; again no clamping. -/
def loadUrlConfig (st : DashboardState) (urlConfig : GamepadConfig) : DashboardState :=
  let st1 := { st with
    natsUrl := urlConfig.natsUrl, subject := urlConfig.subject,
    mappings := urlConfig.mappings }
  let st2 :=
    match urlConfig.sendHz with
    | some hz => { st1 with sendHz := hz }
    | none => st1
  match urlConfig.sendByInterval with
  | some b => { st2 with sendByInterval := b }
  | none => st2

/-- sendPayload (Dashboard.tsx lines 577-585): the publish call runs
inside try/catch; setLastMessage(payload) executes only after a publish
that returned, and a throw is caught, logged, and leaves the state as it
was.  The synchronous outcome of the transport publish call is passed in
as a parameter. -/
def sendPayload (publishResult : Except String Unit) (st : DashboardState)
    (payload : List (String × ℚ)) : DashboardState :=
  match publishResult with
  | .ok _ => { st with lastMessage := some payload }
  | .error _ => st

/-- The interval period (Dashboard.tsx line 589,
const intervalMs = 1000 / sendHz). -/
def intervalMs (sendHz : ℚ) : ℚ := 1000 / sendHz

/-- Modelled from the spec: the host setInterval primitive created by the
streaming effect (Dashboard.tsx lines 590-593) fires k periods after its
creation for k = 1, 2, ..., and the effect cleanup (lines 595-597)
clears it.  The effect is torn down and re-run whenever a dependency
changes, and its dependency array (line 631) includes gamepadState,
which is a fresh object on every animation frame (useGamepad.ts lines
60-68).  firesDuringRun T gap states that a timer of period T fires at
least once within an effect run of length gap. -/
def firesDuringRun (T gap : ℚ) : Prop :=
  ∃ k : ℕ, 1 ≤ k ∧ (k : ℚ) * T < gap

/-- Math.abs agrees with the absolute value on ℚ. -/
theorem mathAbs_eq_abs (x : ℚ) : mathAbs x = |x| := by
  rcases lt_or_le x 0 with h | h
  · simp [mathAbs, h, abs_of_neg h]
  · simp [mathAbs, not_lt.mpr h, abs_of_nonneg h]

/-- The change-detection loop sets hasChange exactly when some mapping in
the remaining list registers a change against the latches it is folded
from; since a latch entry is only rewritten when that channel changed,
the flag is equivalently a test against the latches at loop entry. -/
theorem foldl_hasChange (gs : GamepadState) :
    ∀ (ms : List FieldMapping) (L : Latches) (b : Bool) (p : List (String × ℚ)),
      (ms.foldl (stepMapping gs) ⟨L, b, p⟩).hasChange
        = (b || ms.any (fun m => channelChanged gs L m)) := by
  intro ms
  induction ms with
  | nil => intro L b p; simp
  | cons m rest ih =>
    intro L b p
    rcases m with ⟨t, i, f⟩
    cases t
    case button =>
      simp only [List.foldl_cons, List.any_cons]
      by_cases h : gs.buttons[i]? = readBtnLatch L i
      · have hstep : stepMapping gs ⟨L, b, p⟩ ⟨ChannelKind.button, i, f⟩
            = ⟨L, b, p ++ [(f, if gs.buttons[i]? = some true then 1 else 0)]⟩ := by
          simp [stepMapping, h]
        rw [hstep, ih]
        simp [channelChanged, h]
      · have hstep : stepMapping gs ⟨L, b, p⟩ ⟨ChannelKind.button, i, f⟩
            = ⟨{ L with lastSentState := insertL L.lastSentState i gs.buttons[i]? },
               true, p ++ [(f, if gs.buttons[i]? = some true then 1 else 0)]⟩ := by
          simp [stepMapping, h]
        rw [hstep, ih]
        simp [channelChanged, h]
    case axis =>
      simp only [List.foldl_cons, List.any_cons]
      by_cases h : some (applyDeadzone ((gs.axes[i]?).getD 0)) = lookupL L.lastAxisValues i
      · have hstep : stepMapping gs ⟨L, b, p⟩ ⟨ChannelKind.axis, i, f⟩
            = ⟨L, b, p ++ [(f, round2 (applyDeadzone ((gs.axes[i]?).getD 0)))]⟩ := by
          simp [stepMapping, h]
        rw [hstep, ih]
        simp [channelChanged, h]
      · have hstep : stepMapping gs ⟨L, b, p⟩ ⟨ChannelKind.axis, i, f⟩
            = ⟨{ L with lastAxisValues :=
                  insertL L.lastAxisValues i (applyDeadzone ((gs.axes[i]?).getD 0)) },
               true, p ++ [(f, round2 (applyDeadzone ((gs.axes[i]?).getD 0)))]⟩ := by
          simp [stepMapping, h]
        rw [hstep, ih]
        simp [channelChanged, h]

/-- The change-detection loop assigns the same field values as the
payload builder, in the same order, regardless of the latches. -/
theorem foldl_payload (gs : GamepadState) :
    ∀ (ms : List FieldMapping) (L : Latches) (b : Bool) (p : List (String × ℚ)),
      (ms.foldl (stepMapping gs) ⟨L, b, p⟩).payload = p ++ buildPayload gs ms := by
  intro ms
  induction ms with
  | nil => intro L b p; simp [buildPayload]
  | cons m rest ih =>
    intro L b p
    rcases m with ⟨t, i, f⟩
    cases t
    case button =>
      simp only [List.foldl_cons]
      by_cases h : gs.buttons[i]? = readBtnLatch L i
      · have hstep : stepMapping gs ⟨L, b, p⟩ ⟨ChannelKind.button, i, f⟩
            = ⟨L, b, p ++ [(f, if gs.buttons[i]? = some true then 1 else 0)]⟩ := by
          simp only [stepMapping, if_pos h]
        rw [hstep, ih]
        simp [buildPayload, payloadValue]
      · have hstep : stepMapping gs ⟨L, b, p⟩ ⟨ChannelKind.button, i, f⟩
            = ⟨{ L with lastSentState := insertL L.lastSentState i gs.buttons[i]? },
               true, p ++ [(f, if gs.buttons[i]? = some true then 1 else 0)]⟩ := by
          simp only [stepMapping, if_neg h]
        rw [hstep, ih]
        simp [buildPayload, payloadValue]
    case axis =>
      simp only [List.foldl_cons]
      by_cases h : some (applyDeadzone ((gs.axes[i]?).getD 0)) = lookupL L.lastAxisValues i
      · have hstep : stepMapping gs ⟨L, b, p⟩ ⟨ChannelKind.axis, i, f⟩
            = ⟨L, b, p ++ [(f, round2 (applyDeadzone ((gs.axes[i]?).getD 0)))]⟩ := by
          simp only [stepMapping, if_pos h]
        rw [hstep, ih]
        simp [buildPayload, payloadValue]
      · have hstep : stepMapping gs ⟨L, b, p⟩ ⟨ChannelKind.axis, i, f⟩
            = ⟨{ L with lastAxisValues :=
                  insertL L.lastAxisValues i (applyDeadzone ((gs.axes[i]?).getD 0)) },
               true, p ++ [(f, round2 (applyDeadzone ((gs.axes[i]?).getD 0)))]⟩ := by
          simp only [stepMapping, if_neg h]
        rw [hstep, ih]
        simp [buildPayload, payloadValue]

/-- A change-detection tick publishes the built payload exactly when some
mapping registers a change against the latches at tick entry. -/
theorem changeDetectTick_snd (gs : GamepadState) (ms : List FieldMapping) (L : Latches) :
    (changeDetectTick gs ms L).2
      = if ms.any (fun m => channelChanged gs L m) then some (buildPayload gs ms) else none := by
  show (if (ms.foldl (stepMapping gs) ⟨L, false, []⟩).hasChange
      then some (ms.foldl (stepMapping gs) ⟨L, false, []⟩).payload else none) = _
  rw [foldl_hasChange, foldl_payload]
  simp

/-- C1 (amended): on a change-detection tick with a non-empty mapping
table, a publish occurs iff at least one mapped channel registers a
change, where an axis channel changes iff its deadzone-filtered
pre-rounding value differs from its latch or its latch does not yet
exist, and a button channel changes iff the raw button lookup (undefined
when out of range) differs from its latch read; when a publish occurs the
payload contains every mapped field; when no mapped channel changed, no
publish occurs. -/
theorem changeDetect_publish_iff (gs : GamepadState) (ms : List FieldMapping) (L : Latches)
    (hne : ms ≠ []) :
    ((changeDetectTick gs ms L).2.isSome = true ↔ ∃ m ∈ ms, channelChanged gs L m = true)
    ∧ (∀ p, (changeDetectTick gs ms L).2 = some p → ∀ m ∈ ms, m.fieldName ∈ p.map Prod.fst)
    ∧ ((∀ m ∈ ms, channelChanged gs L m = false) → (changeDetectTick gs ms L).2 = none) := by
  refine ⟨?_, ?_, ?_⟩
  · rw [changeDetectTick_snd]
    by_cases h : ms.any (fun m => channelChanged gs L m) = true
    · rw [if_pos h]
      simpa using List.any_eq_true.mp h
    · rw [if_neg h]
      simp only [Option.isSome_none, Bool.false_eq_true, false_iff]
      intro hex
      exact h (List.any_eq_true.mpr (by simpa using hex))
  · intro p hp m hm
    rw [changeDetectTick_snd] at hp
    by_cases h : ms.any (fun m => channelChanged gs L m) = true
    · rw [if_pos h] at hp
      cases hp
      simp only [buildPayload, List.map_map]
      exact List.mem_map.mpr ⟨m, hm, rfl⟩
    · rw [if_neg h] at hp
      cases hp
  · intro hall
    rw [changeDetectTick_snd, if_neg]
    intro hc
    obtain ⟨m, hm, h⟩ := List.any_eq_true.mp hc
    rw [hall m hm] at h
    cases h

/-- Counterexample to C1 as stated: a mapped button channel whose index
is out of range on the device (button 3 on a one-button device) has no
latch entry, yet the tick detects no change and publishes nothing,
because the undefined button lookup compares equal to the undefined
latch read; the claim says a missing latch always counts as a change. -/
theorem changeDetect_missing_latch_no_publish :
    readBtnLatch Latches.empty 3 = none
    ∧ (changeDetectTick ⟨[false], [], 0⟩ [⟨ChannelKind.button, 3, "b"⟩] Latches.empty).2
        = none :=
  ⟨by decide, by decide⟩

/-- Witness for changeDetect_publish_iff: one button mapping, in range,
unpressed, with empty latches (the spec scenario of a first tick). -/
theorem changeDetect_publish_iff_witness :
    ([(⟨ChannelKind.button, 0, "fire"⟩ : FieldMapping)] ≠ [])
    ∧ (((changeDetectTick ⟨[false], [], 0⟩ [⟨ChannelKind.button, 0, "fire"⟩]
          Latches.empty).2.isSome = true
        ↔ ∃ m ∈ [(⟨ChannelKind.button, 0, "fire"⟩ : FieldMapping)],
            channelChanged ⟨[false], [], 0⟩ Latches.empty m = true)
      ∧ (∀ p, (changeDetectTick ⟨[false], [], 0⟩ [⟨ChannelKind.button, 0, "fire"⟩]
            Latches.empty).2 = some p →
          ∀ m ∈ [(⟨ChannelKind.button, 0, "fire"⟩ : FieldMapping)],
            m.fieldName ∈ p.map Prod.fst)
      ∧ ((∀ m ∈ [(⟨ChannelKind.button, 0, "fire"⟩ : FieldMapping)],
            channelChanged ⟨[false], [], 0⟩ Latches.empty m = false) →
          (changeDetectTick ⟨[false], [], 0⟩ [⟨ChannelKind.button, 0, "fire"⟩]
            Latches.empty).2 = none)) :=
  ⟨by decide,
   changeDetect_publish_iff ⟨[false], [], 0⟩ [⟨ChannelKind.button, 0, "fire"⟩]
     Latches.empty (by decide)⟩

/-- C2 (amended): stopping and restarting streaming leaves the latch
maps exactly as they were (they are never cleared), so the first tick
after a restart publishes nothing whenever no mapped channel differs
from its retained latch. -/
theorem latches_persist_across_stop_start (s : StreamSession) (gs : GamepadState)
    (ms : List FieldMapping)
    (hq : ∀ m ∈ ms, channelChanged gs s.latches m = false) :
    (stopStreaming s).latches = s.latches
    ∧ (startStreaming (stopStreaming s)).latches = s.latches
    ∧ (changeDetectTick gs ms s.latches).2 = none := by
  refine ⟨rfl, rfl, ?_⟩
  rw [changeDetectTick_snd, if_neg]
  intro hc
  obtain ⟨m, hm, h⟩ := List.any_eq_true.mp hc
  rw [hq m hm] at h
  cases h

/-- Counterexample to C2 as stated: a first tick on axis 0 at value 1/2
establishes the latch; stopping leaves the latch maps non-empty (they
are not cleared), and the first tick after stop and restart with the
unchanged snapshot publishes nothing. -/
theorem stop_does_not_clear_latches :
    (changeDetectTick ⟨[], [mkRat 1 2], 0⟩ [⟨ChannelKind.axis, 0, "turn"⟩] Latches.empty).1
      = ⟨[], [(0, mkRat 1 2)]⟩
    ∧ (startStreaming (stopStreaming ⟨true, ⟨[], [(0, mkRat 1 2)]⟩⟩)).latches ≠ Latches.empty
    ∧ (changeDetectTick ⟨[], [mkRat 1 2], 0⟩ [⟨ChannelKind.axis, 0, "turn"⟩]
        (startStreaming (stopStreaming ⟨true, ⟨[], [(0, mkRat 1 2)]⟩⟩)).latches).2 = none :=
  ⟨by decide, by decide, by decide⟩

/-- Witness for latches_persist_across_stop_start: one axis mapping whose
snapshot value equals its retained latch. -/
theorem latches_persist_across_stop_start_witness :
    (∀ m ∈ [(⟨ChannelKind.axis, 0, "turn"⟩ : FieldMapping)],
      channelChanged ⟨[], [mkRat 1 2], 0⟩
        (StreamSession.mk true ⟨[], [(0, mkRat 1 2)]⟩).latches m = false)
    ∧ ((stopStreaming ⟨true, ⟨[], [(0, mkRat 1 2)]⟩⟩).latches
        = (StreamSession.mk true ⟨[], [(0, mkRat 1 2)]⟩).latches
      ∧ (startStreaming (stopStreaming ⟨true, ⟨[], [(0, mkRat 1 2)]⟩⟩)).latches
        = (StreamSession.mk true ⟨[], [(0, mkRat 1 2)]⟩).latches
      ∧ (changeDetectTick ⟨[], [mkRat 1 2], 0⟩ [⟨ChannelKind.axis, 0, "turn"⟩]
          (StreamSession.mk true ⟨[], [(0, mkRat 1 2)]⟩).latches).2 = none) :=
  ⟨by decide,
   latches_persist_across_stop_start ⟨true, ⟨[], [(0, mkRat 1 2)]⟩⟩
     ⟨[], [mkRat 1 2], 0⟩ [⟨ChannelKind.axis, 0, "turn"⟩] (by decide)⟩

/-- Lists agree on any when the predicates agree on members. -/
theorem any_congr_mem {α : Type} :
    ∀ (l : List α) (p q : α → Bool), (∀ x ∈ l, p x = q x) → l.any p = l.any q := by
  intro l p q h
  induction l with
  | nil => rfl
  | cons a t ih =>
    simp only [List.any_cons]
    rw [h a (by simp), ih (fun x hx => h x (by simp [hx]))]

/-- C9 (amended): the publish decision and payload of a tick depend only
on the latch entries of the currently mapped channels, so the orphaned
latch entry of a removed mapping is never consulted while it stays
removed; and when a single mapping is present again, the first tick
publishes exactly when the channel registers a change against the
retained (possibly stale) latch entry, not unconditionally. -/
theorem orphan_latch_inert_readd (gs : GamepadState) (ms : List FieldMapping)
    (L L' : Latches) (hagree : ∀ m ∈ ms, latchAgrees L L' m = true) :
    ((changeDetectTick gs ms L).2 = (changeDetectTick gs ms L').2)
    ∧ ∀ (m : FieldMapping) (L₀ : Latches),
        (changeDetectTick gs [m] L₀).2.isSome = channelChanged gs L₀ m := by
  constructor
  · rw [changeDetectTick_snd, changeDetectTick_snd]
    have hcc : ∀ m ∈ ms, channelChanged gs L m = channelChanged gs L' m := by
      intro m hm
      have ha := hagree m hm
      rcases m with ⟨t, i, f⟩
      cases t
      case button =>
        by_cases h : readBtnLatch L i = readBtnLatch L' i
        · simp only [channelChanged, h]
        · rw [latchAgrees, if_neg h] at ha
          cases ha
      case axis =>
        by_cases h : lookupL L.lastAxisValues i = lookupL L'.lastAxisValues i
        · simp only [channelChanged, h]
        · rw [latchAgrees, if_neg h] at ha
          cases ha
    rw [any_congr_mem ms _ _ hcc]
  · intro m L₀
    rw [changeDetectTick_snd]
    have h1 : ([m].any fun x => channelChanged gs L₀ x) = channelChanged gs L₀ m := by
      simp
    rw [h1]
    cases hc : channelChanged gs L₀ m
    · rw [if_neg (by simp [hc])]
      rfl
    · rw [if_pos (by simp [hc])]
      rfl

/-- Counterexample to C9 as stated: axis 0 at value 3/10 is latched by a
first tick; the mapping is removed, then re-added (same pair, same
field); the first tick after re-adding consults the stale latch, detects
no change, and publishes nothing, instead of treating the channel as a
fresh first observation. -/
theorem readd_mapping_stale_latch :
    removeMapping [⟨ChannelKind.axis, 0, "t"⟩] ChannelKind.axis 0 = []
    ∧ addMapping [] ChannelKind.axis 0 "t" = [⟨ChannelKind.axis, 0, "t"⟩]
    ∧ (changeDetectTick ⟨[], [mkRat 3 10], 0⟩ [⟨ChannelKind.axis, 0, "t"⟩] Latches.empty).1
        = ⟨[], [(0, mkRat 3 10)]⟩
    ∧ (changeDetectTick ⟨[], [mkRat 3 10], 0⟩
        (addMapping (removeMapping [⟨ChannelKind.axis, 0, "t"⟩] ChannelKind.axis 0)
          ChannelKind.axis 0 "t")
        ⟨[], [(0, mkRat 3 10)]⟩).2 = none :=
  ⟨by decide, by decide, by decide, by decide⟩

/-- Witness for orphan_latch_inert_readd: the latch state with an
orphaned button entry at index 5 reads the same as the empty latch state
for a mapping on button 0. -/
theorem orphan_latch_inert_readd_witness :
    (∀ m ∈ [(⟨ChannelKind.button, 0, "b"⟩ : FieldMapping)],
      latchAgrees ⟨[(5, some true)], []⟩ Latches.empty m = true)
    ∧ (((changeDetectTick ⟨[true], [], 0⟩ [⟨ChannelKind.button, 0, "b"⟩]
          ⟨[(5, some true)], []⟩).2
        = (changeDetectTick ⟨[true], [], 0⟩ [⟨ChannelKind.button, 0, "b"⟩]
            Latches.empty).2)
      ∧ ∀ (m : FieldMapping) (L₀ : Latches),
          (changeDetectTick ⟨[true], [], 0⟩ [m] L₀).2.isSome
            = channelChanged ⟨[true], [], 0⟩ L₀ m) :=
  ⟨by decide,
   orphan_latch_inert_readd ⟨[true], [], 0⟩ [⟨ChannelKind.button, 0, "b"⟩]
     ⟨[(5, some true)], []⟩ Latches.empty (by decide)⟩

/-- C4: the payload builder is total and degrades out-of-range channel
indices to the zero default: a button mapping beyond the button count
emits 0, an axis mapping beyond the axis count emits 0, and every
mapping always yields exactly one payload field. -/
theorem buildPayload_total_default_zero (gs : GamepadState) (m : FieldMapping) :
    (m.type = ChannelKind.button → gs.buttons.length ≤ m.index → payloadValue gs m = 0)
    ∧ (m.type = ChannelKind.axis → gs.axes.length ≤ m.index → payloadValue gs m = 0)
    ∧ ∀ ms : List FieldMapping, (buildPayload gs ms).length = ms.length := by
  refine ⟨?_, ?_, ?_⟩
  · intro ht hlen
    rcases m with ⟨t, i, f⟩
    cases ht
    simp only [payloadValue]
    rw [if_neg]
    rw [List.getElem?_eq_none hlen]
    simp
  · intro ht hlen
    rcases m with ⟨t, i, f⟩
    cases ht
    simp only [payloadValue]
    rw [List.getElem?_eq_none hlen]
    have hz : applyDeadzone ((none : Option ℚ).getD 0) = 0 := by
      simp only [Option.getD_none]
      rw [applyDeadzone, if_pos]
      decide
    rw [hz]
    show mkRat ⌊(0 : ℚ) * 100 + mkRat 1 2⌋ 100 = 0
    rw [zero_mul, zero_add]
    have hfl : ⌊(mkRat 1 2 : ℚ)⌋ = 0 := by decide
    rw [hfl]
    decide
  · intro ms
    simp [buildPayload]

/-- Witness for buildPayload_total_default_zero: the spec scenario of an
axis mapping at index 99 on a four-axis device. -/
theorem buildPayload_total_default_zero_witness :
    ((⟨ChannelKind.axis, 99, "a"⟩ : FieldMapping).type = ChannelKind.axis)
    ∧ (⟨[], [mkRat 1 10, mkRat 2 10, mkRat 3 10, mkRat 4 10], 0⟩ : GamepadState).axes.length ≤
        (⟨ChannelKind.axis, 99, "a"⟩ : FieldMapping).index
    ∧ payloadValue ⟨[], [mkRat 1 10, mkRat 2 10, mkRat 3 10, mkRat 4 10], 0⟩
        ⟨ChannelKind.axis, 99, "a"⟩ = 0 :=
  ⟨rfl, by decide,
   (buildPayload_total_default_zero
       ⟨[], [mkRat 1 10, mkRat 2 10, mkRat 3 10, mkRat 4 10], 0⟩
       ⟨ChannelKind.axis, 99, "a"⟩).2.1 rfl (by decide)⟩

/-- C6: inserting a mapping for a (kind, index) pair that already occurs
leaves exactly one entry for that pair, namely the newly inserted
mapping (last write wins); and both addMapping and removeMapping
preserve the at-most-one-mapping-per-pair invariant on any table. -/
theorem mapping_unique_last_write_wins (ms : List FieldMapping) (t : ChannelKind)
    (i : Nat) (f : String) (hf : jsTrim f ≠ "")
    (hex : ∃ m ∈ ms, m.type = t ∧ m.index = i) :
    ((addMapping ms t i f).filter (fun m => decide (m.type = t ∧ m.index = i))
        = [⟨t, i, jsTrim f⟩])
    ∧ ∀ (ms' : List FieldMapping) (t' : ChannelKind) (i' : Nat) (f' : String),
        keysNodup ms' →
        keysNodup (addMapping ms' t' i' f') ∧ keysNodup (removeMapping ms' t' i') := by
  constructor
  · rw [addMapping, if_neg hf, List.filter_append]
    have h0 : (ms.filter (fun m => !decide (m.type = t ∧ m.index = i))).filter
        (fun m => decide (m.type = t ∧ m.index = i)) = [] := by
      rw [List.filter_eq_nil_iff]
      intro a ha
      have hp := List.of_mem_filter ha
      simp only [Bool.not_eq_eq_eq_not, Bool.not_true, decide_eq_false_iff_not] at hp
      simpa using hp
    rw [h0]
    simp
  · intro ms' t' i' f' hnd
    constructor
    · unfold addMapping
      by_cases hb : jsTrim f' = ""
      · rw [if_pos hb]
        exact hnd
      · rw [if_neg hb]
        unfold keysNodup
        rw [List.map_append, List.nodup_append]
        refine ⟨?_, by simp, ?_⟩
        · exact List.Nodup.sublist
            (List.Sublist.map mappingKey (List.filter_sublist ms')) hnd
        · intro k hk hk2
          simp only [mappingKey, List.map_cons, List.map_nil, List.mem_singleton] at hk2
          subst hk2
          obtain ⟨m, hmem, hkey⟩ := List.mem_map.mp hk
          have hp := List.of_mem_filter hmem
          simp only [Bool.not_eq_eq_eq_not, Bool.not_true, decide_eq_false_iff_not] at hp
          exact hp ⟨congrArg Prod.fst hkey, congrArg Prod.snd hkey⟩
    · unfold keysNodup removeMapping
      exact List.Nodup.sublist
        (List.Sublist.map mappingKey (List.filter_sublist ms')) hnd

/-- Witness for mapping_unique_last_write_wins: replacing the existing
mapping for (button, 0). -/
theorem mapping_unique_last_write_wins_witness :
    (jsTrim "b" ≠ "")
    ∧ (∃ m ∈ [(⟨ChannelKind.button, 0, "a"⟩ : FieldMapping)],
        m.type = ChannelKind.button ∧ m.index = 0)
    ∧ (((addMapping [⟨ChannelKind.button, 0, "a"⟩] ChannelKind.button 0 "b").filter
          (fun m => decide (m.type = ChannelKind.button ∧ m.index = 0))
          = [⟨ChannelKind.button, 0, jsTrim "b"⟩])
      ∧ ∀ (ms' : List FieldMapping) (t' : ChannelKind) (i' : Nat) (f' : String),
          keysNodup ms' →
          keysNodup (addMapping ms' t' i' f') ∧ keysNodup (removeMapping ms' t' i')) :=
  ⟨by decide, by decide,
   mapping_unique_last_write_wins [⟨ChannelKind.button, 0, "a"⟩] ChannelKind.button 0 "b"
     (by decide) (by decide)⟩

/-- C10: a publish that throws synchronously leaves the state, and in
particular the last-message observable, unchanged; a publish that
returns updates the last-message observable to the just-built payload. -/
theorem sendPayload_lastMessage (st : DashboardState) (p : List (String × ℚ)) :
    (∀ e : String, sendPayload (Except.error e) st p = st)
    ∧ (sendPayload (Except.ok ()) st p).lastMessage = some p :=
  ⟨fun _ => rfl, rfl⟩

/-- C7 (amended): only the user-input path clamps sendHz into [1, 100];
loading a saved config and loading a share-link config copy the config
value verbatim, so an out-of-range value from a loaded config is stored
unclamped. -/
theorem sendHz_clamped_only_on_input (st : DashboardState) (v : ℚ) (cfg : GamepadConfig)
    (hz : ℚ) (hstream : st.isStreaming = false) (hcfg : cfg.sendHz = some hz) :
    (1 ≤ (setSendHzInput st v).sendHz ∧ (setSendHzInput st v).sendHz ≤ 100)
    ∧ (handleLoadConfig st cfg).sendHz = hz
    ∧ (loadUrlConfig st cfg).sendHz = hz := by
  refine ⟨?_, ?_, ?_⟩
  · rw [setSendHzInput, if_neg (by simp [hstream])]
    exact ⟨le_max_left 1 _, max_le (by norm_num) (min_le_left _ _)⟩
  · unfold handleLoadConfig
    rw [hcfg]
    cases hsb : cfg.sendByInterval <;> rfl
  · unfold loadUrlConfig
    rw [hcfg]
    cases hsb : cfg.sendByInterval <;> rfl

/-- Counterexample to C7 as stated: loading a config carrying sendHz =
500 stores 500, outside [1, 100], on both load paths. -/
theorem loadConfig_sendHz_unclamped :
    (handleLoadConfig ⟨"u", "s", [], 2, false, false, none⟩
        ⟨"n", "nu", "ns", [], some 500, none⟩).sendHz = 500
    ∧ ¬ ((handleLoadConfig ⟨"u", "s", [], 2, false, false, none⟩
        ⟨"n", "nu", "ns", [], some 500, none⟩).sendHz ≤ 100)
    ∧ (loadUrlConfig ⟨"u", "s", [], 2, false, false, none⟩
        ⟨"n", "nu", "ns", [], some 500, none⟩).sendHz = 500 :=
  ⟨rfl, by decide, rfl⟩

/-- Witness for sendHz_clamped_only_on_input: input value 500 is clamped
to 100, while the same value loaded from a config is stored verbatim. -/
theorem sendHz_clamped_only_on_input_witness :
    ((⟨"u", "s", [], 2, false, false, none⟩ : DashboardState).isStreaming = false)
    ∧ ((⟨"n", "nu", "ns", [], some 500, none⟩ : GamepadConfig).sendHz = some 500)
    ∧ ((1 ≤ (setSendHzInput ⟨"u", "s", [], 2, false, false, none⟩ 500).sendHz
        ∧ (setSendHzInput ⟨"u", "s", [], 2, false, false, none⟩ 500).sendHz ≤ 100)
      ∧ (handleLoadConfig ⟨"u", "s", [], 2, false, false, none⟩
          ⟨"n", "nu", "ns", [], some 500, none⟩).sendHz = 500
      ∧ (loadUrlConfig ⟨"u", "s", [], 2, false, false, none⟩
          ⟨"n", "nu", "ns", [], some 500, none⟩).sendHz = 500) :=
  ⟨rfl, rfl,
   sendHz_clamped_only_on_input ⟨"u", "s", [], 2, false, false, none⟩ 500
     ⟨"n", "nu", "ns", [], some 500, none⟩ 500 rfl rfl⟩

/-- C8 (amended): while streaming, the two direct UI paths that would
mutate sendHz and sendByInterval are disabled and leave the state
unchanged; the load-config operation, however, stays available and does
mutate them (see the counterexample). -/
theorem ui_config_locked_while_streaming (st : DashboardState) (v : ℚ) (b : Bool)
    (hstream : st.isStreaming = true) :
    setSendHzInput st v = st ∧ setSendByIntervalInput st b = st := by
  refine ⟨?_, ?_⟩
  · rw [setSendHzInput, if_pos hstream]
  · rw [setSendByIntervalInput, if_pos hstream]

/-- Counterexample to C8 as stated: on a streaming state, loading a
config changes sendHz from 2 to 50 and sendByInterval from false to
true, so not every available operation leaves the two fields unchanged
while streaming. -/
theorem loadConfig_mutates_while_streaming :
    (⟨"u", "s", [], 2, false, true, none⟩ : DashboardState).isStreaming = true
    ∧ (handleLoadConfig ⟨"u", "s", [], 2, false, true, none⟩
        ⟨"n", "nu", "ns", [], some 50, some true⟩).sendHz = 50
    ∧ (⟨"u", "s", [], 2, false, true, none⟩ : DashboardState).sendHz = 2
    ∧ ((50 : ℚ) ≠ 2)
    ∧ (handleLoadConfig ⟨"u", "s", [], 2, false, true, none⟩
        ⟨"n", "nu", "ns", [], some 50, some true⟩).sendByInterval = true
    ∧ (⟨"u", "s", [], 2, false, true, none⟩ : DashboardState).sendByInterval = false :=
  ⟨rfl, rfl, rfl, by decide, rfl, rfl⟩

/-- Witness for ui_config_locked_while_streaming on a concrete streaming
state. -/
theorem ui_config_locked_while_streaming_witness :
    ((⟨"u", "s", [], 2, false, true, none⟩ : DashboardState).isStreaming = true)
    ∧ (setSendHzInput ⟨"u", "s", [], 2, false, true, none⟩ 7
        = (⟨"u", "s", [], 2, false, true, none⟩ : DashboardState)
      ∧ setSendByIntervalInput ⟨"u", "s", [], 2, false, true, none⟩ true
        = (⟨"u", "s", [], 2, false, true, none⟩ : DashboardState)) :=
  ⟨rfl, ui_config_locked_while_streaming ⟨"u", "s", [], 2, false, true, none⟩ 7 true rfl⟩

/-- C3 (code behavior at the failing input): with sendHz = 10 the period
is 100 ms, and during any effect run no longer than one period the timer
never fires.  At a 60 Hz snapshot cadence every run lasts about 16.7 ms,
so in interval mode with sendHz = 10 the timer is cleared and re-created
on every snapshot before it can ever fire: zero publishes in any window,
not the claimed 10 per second independent of snapshot cadence. -/
theorem interval_timer_starved (gap : ℚ) (hgap : gap ≤ 100) :
    intervalMs 10 = 100 ∧ ¬ firesDuringRun (intervalMs 10) gap := by
  have h100 : intervalMs 10 = 100 := by rw [intervalMs]; norm_num
  refine ⟨h100, ?_⟩
  rintro ⟨k, hk1, hklt⟩
  rw [h100] at hklt
  have hk : (1 : ℚ) ≤ (k : ℚ) := by exact_mod_cast hk1
  linarith

/-- Witness for interval_timer_starved at a 17 ms effect run (one 60 Hz
frame, rounded up). -/
theorem interval_timer_starved_witness :
    ((17 : ℚ) ≤ 100)
    ∧ (intervalMs 10 = 100 ∧ ¬ firesDuringRun (intervalMs 10) 17) :=
  ⟨by decide, interval_timer_starved 17 (by decide)⟩

/-- C5: the deadzone threshold is exactly 0.05; Math.abs agrees with the
absolute value, and the filter returns exactly 0 strictly inside the
threshold and the raw value unchanged at or outside it. -/
theorem deadzone_spec :
    deadZone = 5 / 100 ∧
    ∀ x : ℚ, mathAbs x = |x| ∧
      (mathAbs x < deadZone → applyDeadzone x = 0) ∧
      (deadZone ≤ mathAbs x → applyDeadzone x = x) := by
  refine ⟨by rw [deadZone, Rat.mkRat_eq_div]; norm_num,
    fun x => ⟨mathAbs_eq_abs x, fun h => ?_, fun h => ?_⟩⟩
  · simp only [applyDeadzone]
    exact if_pos h
  · simp only [applyDeadzone]
    exact if_neg (not_lt.mpr h)

/-- Witness for deadzone_spec at the concrete inputs 1/100 (inside the
deadzone) and 1/2 (outside). -/
theorem deadzone_spec_witness :
    (mathAbs (mkRat 1 100) < deadZone ∧ applyDeadzone (mkRat 1 100) = 0) ∧
    (deadZone ≤ mathAbs (mkRat 1 2) ∧ applyDeadzone (mkRat 1 2) = mkRat 1 2) :=
  ⟨⟨by decide, (deadzone_spec.2 (mkRat 1 100)).2.1 (by decide)⟩,
   ⟨by decide, (deadzone_spec.2 (mkRat 1 2)).2.2 (by decide)⟩⟩
